import Mathlib
set_option maxRecDepth 100000

/-!
# Verification of the page-renderer of niluferormanlistudio.com

A shallow embedding of `assets/js/mobile-nav.js` (the bundled
`mobile-nav.js` + `page-renderer.js`), faithful to the JavaScript source:

* JavaScript runtime values that can appear in the YAML-derived section
  records are modelled by `JSVal` (strings, numbers, booleans, `null`,
  `undefined`); JavaScript truthiness (`x || y`, `x ? a : b`) is modelled
  by `truthy`/`jsOr`.
* Each section renderer builds an HTML string by concatenation, exactly
  mirroring the template-string concatenations assigned to `el.innerHTML`
  in the source.  We model a renderer's output as that `innerHTML` string;
  `createSection`'s `className`/`id` assignments are DOM-property writes,
  not markup interpolation, and are outside the interpolation discipline
  being verified.
* The dispatch `renderers[section.type]` is a JavaScript bracket lookup
  on an object literal and therefore traverses the prototype chain:
  besides the thirteen own keys it can hit the inherited
  `Object.prototype` properties, which are truthy but are not rendering
  rules.  `renderSection` accordingly returns `Option String`, with
  `none` modelling the resulting `TypeError` path on which no section
  fragment is produced.
* `String.prototype.replace(/c/g, r)` with a single-character pattern is
  modelled by `replaceChar`; the `esc` helper is its four sequential
  passes.
* DOM mutation sequences (the render commit, the active-nav marking, the
  footer application) are modelled as explicit state transformers, and the
  render commit additionally as a trace of container states so that
  intermediate states are visible.
-/

namespace SiteSpec

/-- JavaScript values that can flow out of the parsed YAML into the
renderer: strings, numbers, booleans, `null` and `undefined`. -/
inductive JSVal where
  | vstr (s : String)
  | vnum (n : Int)
  | vbool (b : Bool)
  | vnull
  | vundef
deriving DecidableEq, Repr

/-- Is this value a JavaScript string? -/
def JSVal.isStringV : JSVal → Bool
  | .vstr _ => true
  | _ => false

/-- JavaScript truthiness: `''`, `0`, `false`, `null`, `undefined` are falsy. -/
def truthy : JSVal → Bool
  | .vstr s => !(s == "")
  | .vnum n => !(n == 0)
  | .vbool b => b
  | .vnull => false
  | .vundef => false

/-- JavaScript `a || b`: the left operand if truthy, otherwise the right. -/
def jsOr (a b : JSVal) : JSVal :=
  if truthy a then a else b

/-- JavaScript string coercion as applied by `+` / `String(...)` /
`textContent` assignment. -/
def jsStringOf : JSVal → String
  | .vstr s => s
  | .vnum n => toString n
  | .vbool b => if b then "true" else "false"
  | .vnull => "null"
  | .vundef => "undefined"

/-- `String.prototype.replace(/c/g, r)` for a single-character pattern `c`:
every occurrence of `c` is replaced by `r`, in one left-to-right pass. -/
def replaceChar (s : String) (c : Char) (r : String) : String :=
  ⟨s.data.foldr (fun ch acc => if ch = c then r.data ++ acc else ch :: acc) []⟩

/-- `esc` on an actual string: the four sequential global replaces of the
source (`&` then `<` then `>` then `"`). -/
def escStr (s : String) : String :=
  replaceChar (replaceChar (replaceChar (replaceChar s '&' "&amp;") '<' "&lt;") '>' "&gt;") '"' "&quot;"

/-- The `esc` helper of the source: non-strings map to `''`
(`if (typeof str !== 'string') return '';`), strings get the four
entity replacements. -/
def esc : JSVal → String
  | .vstr s => escStr s
  | _ => ""

/-- An item record of a list-bearing section (`s.items` elements).  Fields
that are absent in the YAML are `undefined`. -/
structure Item where
  label : JSVal := .vundef
  value : JSVal := .vundef
  term : JSVal := .vundef
  definition : JSVal := .vundef
  heading : JSVal := .vundef
  description : JSVal := .vundef
  name : JSVal := .vundef
  title : JSVal := .vundef
  bio : JSVal := .vundef
  method : JSVal := .vundef
  href : JSVal := .vundef
  url : JSVal := .vundef
deriving DecidableEq, Repr

/-- A section record of a content document.  `items`, when present, is a
parsed sequence; `none` models an absent (`undefined`) `items` field, so
`s.items || []` becomes `items.getD []`. -/
structure Section where
  type : JSVal := .vundef
  id : JSVal := .vundef
  heading : JSVal := .vundef
  subheading : JSVal := .vundef
  label : JSVal := .vundef
  body : JSVal := .vundef
  url : JSVal := .vundef
  external : JSVal := .vundef
  last_updated : JSVal := .vundef
  items : Option (List Item) := none
deriving DecidableEq, Repr

/-- `sectionLabel(label)`: an `h2` when the label is truthy, else `''`. -/
def sectionLabel (label : JSVal) : String :=
  if truthy label then "<h2 class=\"section-label\">" ++ esc label ++ "</h2>" else ""

namespace Renderers

/-- `renderers.hero`. -/
def hero (s : Section) : String :=
  "<div class=\"section-inner\">" ++
    "<h1 class=\"hero-heading\">" ++ esc (jsOr s.heading (.vstr "")) ++ "</h1>" ++
    (if truthy s.subheading
      then "<p class=\"hero-subheading\">" ++ esc s.subheading ++ "</p>"
      else "") ++
  "</div>"

/-- `renderers['page-header']`. -/
def pageHeader (s : Section) : String :=
  "<div class=\"section-inner\">" ++
    "<h1 class=\"page-heading\">" ++ esc (jsOr s.heading (.vstr "")) ++ "</h1>" ++
    (if truthy s.subheading
      then "<p class=\"page-subheading\">" ++ esc s.subheading ++ "</p>"
      else "") ++
  "</div>"

/-- `renderers.summary`. -/
def summary (s : Section) : String :=
  "<div class=\"section-inner\">" ++
    sectionLabel s.label ++
    "<dl class=\"summary-list\">" ++
      String.join ((s.items.getD []).map (fun item =>
        "<div class=\"summary-item\">" ++
          "<dt class=\"summary-term\">" ++ esc item.label ++ "</dt>" ++
          "<dd class=\"summary-value\">" ++ esc item.value ++ "</dd>" ++
        "</div>")) ++
    "</dl>" ++
  "</div>"

/-- `renderers.statement`. -/
def statement (s : Section) : String :=
  "<div class=\"section-inner\">" ++
    "<p class=\"statement-body\">" ++ esc (jsOr s.body (.vstr "")) ++ "</p>" ++
  "</div>"

/-- `renderers['text-block']`: escaped body with `\n` → `<br>`. -/
def textBlock (s : Section) : String :=
  "<div class=\"section-inner\">" ++
    sectionLabel s.label ++
    "<div class=\"text-body\">" ++
      replaceChar (esc (jsOr s.body (.vstr ""))) '\n' "<br>" ++
    "</div>" ++
  "</div>"

/-- `renderers['definition-list']`. -/
def definitionList (s : Section) : String :=
  "<div class=\"section-inner\">" ++
    sectionLabel s.label ++
    "<dl class=\"def-list\">" ++
      String.join ((s.items.getD []).map (fun item =>
        "<div class=\"def-item\">" ++
          "<dt class=\"def-term\">" ++ esc item.term ++ "</dt>" ++
          "<dd class=\"def-value\">" ++ esc item.definition ++ "</dd>" ++
        "</div>")) ++
    "</dl>" ++
  "</div>"

/-- `renderers['activity-list']`. -/
def activityList (s : Section) : String :=
  "<div class=\"section-inner\">" ++
    sectionLabel s.label ++
    "<div class=\"activity-list\">" ++
      String.join ((s.items.getD []).map (fun item =>
        "<div class=\"activity-item\">" ++
          "<h2 class=\"activity-heading\">" ++ esc item.heading ++ "</h2>" ++
          "<p class=\"activity-description\">" ++ esc item.description ++ "</p>" ++
        "</div>")) ++
    "</div>" ++
  "</div>"

/-- `renderers.persons`. -/
def persons (s : Section) : String :=
  "<div class=\"section-inner\">" ++
    sectionLabel s.label ++
    "<div class=\"persons-list\">" ++
      String.join ((s.items.getD []).map (fun item =>
        "<article class=\"person-item\">" ++
          "<h2 class=\"person-name\">" ++ esc item.name ++ "</h2>" ++
          (if truthy item.title
            then "<p class=\"person-title\">" ++ esc item.title ++ "</p>"
            else "") ++
          (if truthy item.bio
            then "<p class=\"person-bio\">" ++ esc item.bio ++ "</p>"
            else "") ++
        "</article>")) ++
    "</div>" ++
  "</div>"

/-- `renderers['contact-block']`: the value becomes a link when `href` is
truthy; note that `esc` IS applied to `item.href`. -/
def contactBlock (s : Section) : String :=
  "<div class=\"section-inner\">" ++
    sectionLabel s.label ++
    "<dl class=\"contact-list\">" ++
      String.join ((s.items.getD []).map (fun item =>
        "<div class=\"contact-item\">" ++
          "<dt class=\"contact-method\">" ++ esc item.method ++ "</dt>" ++
          "<dd class=\"contact-value\">" ++
            (if truthy item.href
              then "<a href=\"" ++ esc item.href ++ "\">" ++ esc item.value ++ "</a>"
              else esc item.value) ++
          "</dd>" ++
        "</div>")) ++
    "</dl>" ++
  "</div>"

/-- `renderers.link`: note that `esc` IS applied to `s.url || '#'`. -/
def link (s : Section) : String :=
  "<div class=\"section-inner\">" ++
    "<a href=\"" ++ esc (jsOr s.url (.vstr "#")) ++ "\" class=\"official-link\"" ++
      (if truthy s.external then " target=\"_blank\" rel=\"noopener noreferrer\"" else "") ++
    ">" ++
      esc (jsOr s.label (.vstr "Visit Official Website")) ++
    "</a>" ++
  "</div>"

/-- `renderers['back-link']`: note that `esc` IS applied to `s.url || '/legal/'`. -/
def backLink (s : Section) : String :=
  "<div class=\"section-inner\">" ++
    "<a href=\"" ++ esc (jsOr s.url (.vstr "/legal/")) ++ "\" class=\"back-link\">" ++
      esc (jsOr s.label (.vstr "Back")) ++
    "</a>" ++
  "</div>"

/-- `renderers['legal-nav']`: note that `esc` IS applied to `item.url`. -/
def legalNav (s : Section) : String :=
  "<div class=\"section-inner\">" ++
    sectionLabel s.label ++
    "<ul class=\"legal-nav-list\" role=\"list\">" ++
      String.join ((s.items.getD []).map (fun item =>
        "<li>" ++
          "<a href=\"" ++ esc item.url ++ "\" class=\"legal-nav-link\">" ++
            esc item.label ++
          "</a>" ++
        "</li>")) ++
    "</ul>" ++
  "</div>"

/-- `renderers['legal-document']`: the only renderer that interpolates a
field (`s.body || ''`) WITHOUT `esc`. -/
def legalDocument (s : Section) : String :=
  "<div class=\"section-inner\">" ++
    (if truthy s.last_updated
      then "<p class=\"legal-updated\">Last updated: " ++ esc s.last_updated ++ "</p>"
      else "") ++
    "<div class=\"legal-body\">" ++ jsStringOf (jsOr s.body (.vstr "")) ++ "</div>" ++
  "</div>"

end Renderers

/-- The renderer registry object `var renderers = {...}`, as an
association list keyed by the section-type string. -/
def renderers : List (String × (Section → String)) :=
  [("hero", Renderers.hero),
   ("page-header", Renderers.pageHeader),
   ("summary", Renderers.summary),
   ("statement", Renderers.statement),
   ("text-block", Renderers.textBlock),
   ("definition-list", Renderers.definitionList),
   ("activity-list", Renderers.activityList),
   ("persons", Renderers.persons),
   ("contact-block", Renderers.contactBlock),
   ("link", Renderers.link),
   ("back-link", Renderers.backLink),
   ("legal-nav", Renderers.legalNav),
   ("legal-document", Renderers.legalDocument)]

/-- The registry's keys, in registration order. -/
def registryKeys : List String :=
  renderers.map Prod.fst

/-- The property names every plain object literal inherits from
`Object.prototype` (ECMA-262, browser environment, Annex B included).
`renderers[k]` for such a `k` yields a truthy inherited value even though
`k` is not a key of the literal. -/
def OBJECT_PROTOTYPE_KEYS : List String :=
  ["constructor", "hasOwnProperty", "isPrototypeOf", "propertyIsEnumerable",
   "toLocaleString", "toString", "valueOf", "__defineGetter__",
   "__defineSetter__", "__lookupGetter__", "__lookupSetter__", "__proto__"]

/-- Result of the JavaScript property lookup `renderers[section.type]`:
an own key of the object literal yields its registered rendering rule; a
key naming an inherited `Object.prototype` property yields a truthy value
that is not a rendering rule; any other key yields `undefined`. -/
inductive PropLookup where
  | own (r : Section → String)
  | proto
  | miss

/-- `renderers[section.type]`: JavaScript bracket lookup keyed by the
string coercion of the type value, including the prototype chain of the
object literal. -/
def rendererFor (t : JSVal) : PropLookup :=
  match (renderers.find? (fun p => p.1 == jsStringOf t)).map (fun p => p.2) with
  | some r => .own r
  | none => if jsStringOf t ∈ OBJECT_PROTOTYPE_KEYS then .proto else .miss

/-- The `innerHTML` built by the unknown-type fallback branch of
`renderSection`. -/
def fallbackHtml (s : Section) : String :=
  "<div class=\"section-inner\">" ++
    (if truthy s.body then "<p>" ++ esc s.body ++ "</p>" else "") ++
  "</div>"

/-- `renderSection(section)`: dispatch on `section.type` via
`if (renderer) { return renderer(section); }`, with the generic fallback
only when the lookup is `undefined`.  `some html` is a section element
with that `innerHTML`.  `none` is the JavaScript error path: for an
inherited `Object.prototype` property the looked-up value is truthy, so
the fallback branch is skipped and `renderer(section)` either throws a
`TypeError` at the call (`__proto__` yields the non-callable
`Object.prototype`; the strict-mode methods such as `hasOwnProperty`
throw on an `undefined` `this`) or returns a non-element (`constructor`,
`toString`) that the caller's `appendChild` then rejects with a
`TypeError` — no section fragment is ever produced. -/
def renderSection (s : Section) : Option String :=
  match rendererFor s.type with
  | .own r => some (r s)
  | .proto => none
  | .miss => some (fallbackHtml s)

/-- Rendering a section through the dispatcher with its `type` set to a
registered type name.  For every name in `registryKeys` the lookup hits
an own key of the literal (`renderSection_registered` below), so the
defaulting `getD` can never fire at this function's uses. -/
def renderByType (t : String) (s : Section) : String :=
  (renderSection { s with type := .vstr t }).getD ""

/-- Drop every trailing `'/'` of a character list (`replace(/\/+$/,'')`). -/
def stripTrailingSlashes (l : List Char) : List Char :=
  (l.reverse.dropWhile (fun c => c = '/')).reverse

/-- `normalisePath(pathname)`: strip trailing slashes, lower-case
(`toLowerCase` on these ASCII paths is a per-character `Char.toLower`),
and fall back to `'/'` when the result is empty. -/
def normalisePath (pathname : String) : String :=
  let p : String := ⟨(stripTrailingSlashes pathname.data).map Char.toLower⟩
  if p = "" then "/" else p

/-- Substring test on strings, via character lists: some suffix of the
haystack has the needle as a prefix. -/
def containsSub (hay need : String) : Bool :=
  hay.data.tails.any (fun t => need.data.isPrefixOf t)

/-- The activity condition of `setActiveNav` for one link:
`href === currentPath || (href !== '/' && currentPath.indexOf(href) === 0)`,
where both sides have been normalised (`indexOf(h) === 0` is the
prefix-at-position-zero test). -/
def isActiveLink (currentPath : String) (href : String) : Bool :=
  href == currentPath || (href != "/" && href.data.isPrefixOf currentPath.data)

/-- The mutable per-link state touched by `setActiveNav`: the class list
and the `aria-current` attribute. -/
structure LinkState where
  classes : List String := []
  ariaCurrent : Option String := none
deriving DecidableEq, Repr

/-- `classList.add`: appends the class when absent, no-op when present. -/
def addClass (l : List String) (c : String) : List String :=
  if c ∈ l then l else l ++ [c]

/-- `classList.remove`: removes every occurrence of the class. -/
def removeClass (l : List String) (c : String) : List String :=
  l.filter (fun x => x ≠ c)

/-- The body of `setActiveNav`'s per-link callback: given the raw current
pathname and the link's raw `href` attribute (`null` when absent, hence
`getAttribute('href') || ''`), update the link's state. -/
def updateLink (currentRaw : String) (hrefAttr : Option String) (st : LinkState) : LinkState :=
  let currentPath := normalisePath currentRaw
  let href := normalisePath (hrefAttr.getD "")
  if isActiveLink currentPath href then
    { classes := addClass st.classes "is-active", ariaCurrent := some "page" }
  else
    { classes := removeClass st.classes "is-active", ariaCurrent := none }

/-- The static `CONTENT_MAP` object, as an association list in source
order. -/
def CONTENT_MAP : List (String × String) :=
  [("/", "content/home.yml"),
   ("/about", "content/about.yml"),
   ("/activities", "content/activities.yml"),
   ("/management", "content/management.yml"),
   ("/contact", "content/contact.yml"),
   ("/legal", "content/legal/index.yml"),
   ("/legal/privacy-policy", "content/legal/privacy-policy.yml"),
   ("/legal/terms-of-use", "content/legal/terms-of-use.yml"),
   ("/legal/cookie-notice", "content/legal/cookie-notice.yml"),
   ("/legal/ip-notice", "content/legal/ip-notice.yml")]

/-- `CONTENT_MAP[pathname]` lookup. -/
def contentMapLookup (key : String) : Option String :=
  (CONTENT_MAP.find? (fun p => p.1 == key)).map (fun p => p.2)

/-- The static markup written into `#content-root` on a Content Map miss. -/
def NOT_FOUND_HTML : String :=
  "<section class=\"section\"><div class=\"section-inner\">" ++
    "<h1 class=\"page-heading\">Page Not Found</h1>" ++
    "<p style=\"margin-top:1rem;color:var(--c-text-2)\">The requested page does not exist.</p>" ++
  "</div></section>"

/-- What `init`'s content branch does synchronously after resolving the
path: either the terminal Not Found render (busy cleared, static markup,
`return` — no content fetch), or the start of a fetch for the resolved
locator. -/
inductive ContentStep where
  | notFound (busy : String) (html : String)
  | startFetch (yamlPath : String)
deriving DecidableEq, Repr

/-- The resolution step of `init`: `normalisePath` the location, look it
up in `CONTENT_MAP`, and branch on `if (!yamlPath)`. -/
def initContentStep (pathname : String) : ContentStep :=
  match contentMapLookup (normalisePath pathname) with
  | none => .notFound "false" NOT_FOUND_HTML
  | some yamlPath => .startFetch yamlPath

/-- The `footer:` mapping of the navigation document. -/
structure FooterCfg where
  entity_name : JSVal := .vundef
  state_of_registration : JSVal := .vundef
  state : JSVal := .vundef
  business_email : JSVal := .vundef
  copyright_year : JSVal := .vundef
deriving DecidableEq, Repr

/-- The `site:` mapping of the navigation document. -/
structure SiteCfg where
  name : JSVal := .vundef
deriving DecidableEq, Repr

/-- A parsed navigation document (`navData`). -/
structure NavData where
  footer : Option FooterCfg := none
  site : Option SiteCfg := none
deriving DecidableEq, Repr

/-- Outcome of the `fetch(NAV_CONFIG_PATH)` call: a network rejection, or
a response with its `ok` flag, status and body text. -/
inductive FetchResult where
  | networkError
  | response (ok : Bool) (status : Nat) (body : String)
deriving DecidableEq, Repr

/-- `loadNavConfig()` as a function of the fetch outcome and of the YAML
parser (`jsyaml.load`, an external dependency: `none` models a parse
throw).  Returns the settled value of the memoised promise together with
a flag recording whether the catch handler logged an error.  Every
failure funnels into the final `.catch`, which logs and resolves to
`null`. -/
def loadNavConfig (parse : String → Option NavData) (r : FetchResult) :
    Option NavData × Bool :=
  match r with
  | .networkError => (none, true)
  | .response ok _ body =>
    if !ok then (none, true)
    else
      match parse body with
      | none => (none, true)
      | some d => (d, false)

/-- The footer DOM slots touched by `applyFooter`.  Each slot is `none`
when the element is absent from the page; `footerEmail` carries
(textContent, href). -/
structure ChromeState where
  footerName : Option String := none
  footerState : Option String := none
  footerEmail : Option (String × String) := none
  footerCopyright : Option String := none
deriving DecidableEq, Repr

/-- `applyFooter(navData)` over the footer slots; `currentYear` stands for
`new Date().getFullYear()`. -/
def applyFooter (currentYear : Int) (navData : NavData) (st : ChromeState) : ChromeState :=
  let footerCfg := navData.footer.getD {}
  let siteCfg := navData.site.getD {}
  let entityName := jsOr footerCfg.entity_name
    (jsOr siteCfg.name (.vstr "Nilüfer Ormanlı Studio LLC"))
  let st1 := { st with footerName := st.footerName.map (fun _ => jsStringOf entityName) }
  let stateText := jsOr footerCfg.state_of_registration footerCfg.state
  let st2 :=
    if truthy stateText then
      { st1 with footerState :=
          st1.footerState.map (fun _ => "Registered in " ++ jsStringOf stateText) }
    else st1
  let email := footerCfg.business_email
  let st3 :=
    if truthy email then
      { st2 with footerEmail :=
          st2.footerEmail.map (fun _ => (jsStringOf email, "mailto:" ++ jsStringOf email)) }
    else st2
  let year := jsOr footerCfg.copyright_year (.vnum currentYear)
  { st3 with footerCopyright :=
      st3.footerCopyright.map (fun _ =>
        "&copy; " ++ esc (.vstr (jsStringOf year)) ++ " " ++ esc entityName ++
        ". All rights reserved.") }

/-- `applySiteChrome(navData)`: `if (!navData) return;` then apply the
footer. -/
def applySiteChrome (currentYear : Int) (navData : Option NavData) (st : ChromeState) :
    ChromeState :=
  match navData with
  | none => st
  | some d => applyFooter currentYear d st

/-- A DOM operation on the content root performed by the render-commit
sequence of `init`. -/
inductive DomOp where
  | setBusy (v : String)
  | clearChildren
  | appendChildren (ns : List String)
deriving DecidableEq, Repr

/-- Content root state: the busy attribute and the child nodes. -/
structure RootState where
  busy : String := "true"
  children : List String := []
deriving DecidableEq, Repr

/-- Apply one DOM operation. -/
def applyOp (st : RootState) : DomOp → RootState
  | .setBusy v => { st with busy := v }
  | .clearChildren => { st with children := [] }
  | .appendChildren ns => { st with children := st.children ++ ns }

/-- The commit sequence of the `Rendering → Rendered` transition, in
source order: `root.setAttribute('aria-busy','false')`,
`root.innerHTML = ''`, `root.appendChild(fragment)`. -/
def renderCommitOps (fragment : List String) : List DomOp :=
  [.setBusy "false", .clearChildren, .appendChildren fragment]

/-- The trace of root states along a sequence of DOM operations (initial
state included). -/
def statesOf (st : RootState) (ops : List DomOp) : List RootState :=
  ops.scanl applyOp st

/-- Does an operation mutate the child list? -/
def mutatesChildren : DomOp → Bool
  | .setBusy _ => false
  | .clearChildren => true
  | .appendChildren _ => true

/-- Test fixture: an item whose every string field is the probe `<script>`. -/
def scriptItem : Item :=
  { label := .vstr "<script>", value := .vstr "<script>", term := .vstr "<script>",
    definition := .vstr "<script>", heading := .vstr "<script>",
    description := .vstr "<script>", name := .vstr "<script>",
    title := .vstr "<script>", bio := .vstr "<script>", method := .vstr "<script>",
    href := .vstr "<script>", url := .vstr "<script>" }

/-- Test fixture: a section whose every string field is the probe
`<script>`, carrying one `scriptItem`. -/
def scriptSec : Section :=
  { heading := .vstr "<script>", subheading := .vstr "<script>",
    label := .vstr "<script>", body := .vstr "<script>", url := .vstr "<script>",
    external := .vstr "<script>", last_updated := .vstr "<script>",
    items := some [scriptItem] }

/-- Test fixture: a contact item with destination `u`. -/
def emailItem (u : String) : Item :=
  { method := .vstr "Email", value := .vstr "Write to us", href := .vstr u }

/-- Test fixture: a `contact-block` section around `emailItem u`. -/
def cbSec (u : String) : Section :=
  { type := .vstr "contact-block", items := some [emailItem u] }

/-- Test fixture: a `link` section with destination `u`. -/
def linkSec (u : String) : Section :=
  { type := .vstr "link", url := .vstr u, label := .vstr "Go", external := .vbool true }

/-- Test fixture: a `back-link` section with destination `u`. -/
def backSec (u : String) : Section :=
  { type := .vstr "back-link", url := .vstr u, label := .vstr "Back to legal" }

/-- Test fixture: a `legal-nav` section with one item of destination `u`. -/
def legalNavSec (u : String) : Section :=
  { type := .vstr "legal-nav", items := some [{ url := .vstr u, label := .vstr "Privacy" }] }

/-! ## Helper lemmas -/

theorem toNat_ofNat_valid (n : Nat) (h : n < 0xd800) : (Char.ofNat n).toNat = n := by
  rw [Char.ofNat, dif_pos (Or.inl h)]
  simp [Char.ofNatAux, Char.toNat, UInt32.ofNat', UInt32.toNat, BitVec.toNat_ofNatLt]

theorem toLower_eq_slash (c : Char) : Char.toLower c = '/' ↔ c = '/' := by
  constructor
  · intro h
    rw [Char.toLower] at h
    by_cases hc : c.toNat ≥ 65 ∧ c.toNat ≤ 90
    · rw [if_pos hc] at h
      exfalso
      have h2 := congrArg Char.toNat h
      rw [toNat_ofNat_valid (c.toNat + 32) (by omega)] at h2
      have : ('/' : Char).toNat = 47 := by decide
      omega
    · rwa [if_neg hc] at h
  · intro h; subst h; decide

theorem dropWhile_slash_replicate (n : Nat) (l : List Char) :
    List.dropWhile (fun c => c = '/') (List.replicate n '/' ++ l) =
      List.dropWhile (fun c => c = '/') l := by
  induction n with
  | zero => simp
  | succ k ih => simp [List.replicate_succ, List.dropWhile_cons, ih]

theorem strip_append_replicate (l : List Char) (n : Nat) :
    stripTrailingSlashes (l ++ List.replicate n '/') = stripTrailingSlashes l := by
  unfold stripTrailingSlashes
  rw [List.reverse_append, List.reverse_replicate, dropWhile_slash_replicate]

theorem strip_map_toLower (l : List Char) :
    (stripTrailingSlashes l).map Char.toLower =
      stripTrailingSlashes (l.map Char.toLower) := by
  unfold stripTrailingSlashes
  have hp : (fun c => decide (c = '/')) ∘ Char.toLower = fun c => decide (c = '/') := by
    funext c
    exact decide_eq_decide.mpr (toLower_eq_slash c)
  rw [← List.map_reverse, List.dropWhile_map, hp, ← List.map_reverse]

/-! ## C3 — `normalisePath` -/

/-- C3: `normalisePath` removes one or more trailing `/` characters,
lower-cases, and yields `/` on an empty result; paths differing only by
trailing slashes or letter case map to the same canonical key, e.g.
`/About/`, `/about` and `/ABOUT` all map to `/about`. -/
theorem normalisePath_canonical :
    (∀ (s : String) (n : Nat),
       normalisePath (s ++ (⟨List.replicate n '/'⟩ : String)) = normalisePath s) ∧
    (∀ s t : String,
       s.data.map Char.toLower = t.data.map Char.toLower →
       normalisePath s = normalisePath t) ∧
    normalisePath "" = "/" ∧ normalisePath "///" = "/" ∧
    normalisePath "/About/" = "/about" ∧ normalisePath "/about" = "/about" ∧
    normalisePath "/ABOUT" = "/about" := by
  refine ⟨?_, ?_, by decide, by decide, by decide, by decide, by decide⟩
  · intro s n
    unfold normalisePath
    rw [show (s ++ (⟨List.replicate n '/'⟩ : String)).data
          = s.data ++ List.replicate n '/' from String.data_append ..,
        strip_append_replicate]
  · intro s t h
    unfold normalisePath
    rw [strip_map_toLower, strip_map_toLower, h]

/-- Witness for C3 at concrete inputs. -/
theorem normalisePath_canonical_witness :
    "/About/".data.map Char.toLower = "/ABOUT/".data.map Char.toLower ∧
    normalisePath "/About/" = normalisePath "/ABOUT/" ∧
    normalisePath ("/about" ++ (⟨List.replicate 2 '/'⟩ : String)) = normalisePath "/about" :=
  ⟨by decide, normalisePath_canonical.2.1 "/About/" "/ABOUT/" (by decide),
   normalisePath_canonical.1 "/about" 2⟩

/-! ## C7 — `CONTENT_MAP` keys are normalised -/

/-- C7: every key of the static Content Map is a fixed point of
`normalisePath` (lower-case, no trailing slash, `/` for the root). -/
theorem contentMap_keys_normalised :
    CONTENT_MAP.all (fun kv => normalisePath kv.1 == kv.1) = true := by decide

/-! ## C6 — Content Map miss renders Not Found, no fetch -/

/-- C6: when the normalised path has no Content Map entry, `init` renders
the static Page Not Found fragment, sets `aria-busy` to `"false"`, and
does not start a content fetch. -/
theorem init_miss_not_found (pathname : String)
    (h : contentMapLookup (normalisePath pathname) = none) :
    initContentStep pathname = .notFound "false" NOT_FOUND_HTML ∧
    ∀ y, initContentStep pathname ≠ .startFetch y := by
  unfold initContentStep
  rw [h]
  exact ⟨rfl, fun y hy => ContentStep.noConfusion hy⟩

/-- Witness for C6 at the spec's example path `/unknown-page`. -/
theorem init_miss_not_found_witness :
    contentMapLookup (normalisePath "/unknown-page") = none ∧
    initContentStep "/unknown-page" = .notFound "false" NOT_FOUND_HTML :=
  ⟨by decide, (init_miss_not_found "/unknown-page" (by decide)).1⟩

/-! ## Character-level facts about `esc` -/

theorem mem_replaceChar_data {x c : Char} {r : String} :
    ∀ l : List Char,
      x ∈ l.foldr (fun ch acc => if ch = c then r.data ++ acc else ch :: acc) [] →
      (x ∈ l ∧ x ≠ c) ∨ x ∈ r.data := by
  intro l
  induction l with
  | nil => intro h; simp at h
  | cons a tl ih =>
    intro h
    simp only [List.foldr_cons] at h
    by_cases hac : a = c
    · rw [if_pos hac] at h
      rcases List.mem_append.mp h with h1 | h2
      · exact Or.inr h1
      · rcases ih h2 with ⟨h3, h4⟩ | h5
        · exact Or.inl ⟨List.mem_cons_of_mem _ h3, h4⟩
        · exact Or.inr h5
    · rw [if_neg hac] at h
      rcases List.mem_cons.mp h with h1 | h2
      · subst h1; exact Or.inl ⟨List.mem_cons_self _ _, hac⟩
      · rcases ih h2 with ⟨h3, h4⟩ | h5
        · exact Or.inl ⟨List.mem_cons_of_mem _ h3, h4⟩
        · exact Or.inr h5

theorem mem_replaceChar {x : Char} {s : String} {c : Char} {r : String}
    (h : x ∈ (replaceChar s c r).data) : (x ∈ s.data ∧ x ≠ c) ∨ x ∈ r.data :=
  mem_replaceChar_data s.data h

/-- After `esc`, no raw `<`, `>` or `"` remains anywhere in the string. -/
theorem escStr_no_reserved (s : String) :
    (escStr s).data.all (fun ch => !(ch == '<') && !(ch == '>') && !(ch == '"')) = true := by
  rw [List.all_eq_true]
  intro x hx
  have hquot : ∀ y ∈ "&quot;".data, (!(y == '<') && !(y == '>') && !(y == '"')) = true := by
    decide
  have hgt : ∀ y ∈ "&gt;".data, (!(y == '<') && !(y == '>') && !(y == '"')) = true := by
    decide
  have hlt : ∀ y ∈ "&lt;".data, (!(y == '<') && !(y == '>') && !(y == '"')) = true := by
    decide
  rcases mem_replaceChar hx with ⟨h2, hq⟩ | hr
  · rcases mem_replaceChar h2 with ⟨h4, hg⟩ | hr2
    · rcases mem_replaceChar h4 with ⟨_, hl⟩ | hr3
      · simp only [Bool.and_eq_true, Bool.not_eq_true', beq_eq_false_iff_ne]
        exact ⟨⟨hl, hg⟩, hq⟩
      · exact hlt x hr3
    · exact hgt x hr2
  · exact hquot x hr

/-! ## C1 — escaping discipline -/

/-- C1: `esc` replaces the reserved characters `&`, `<`, `>`, `"` by
their HTML entities and leaves no raw `<`, `>` or `"` in its output; for
every registered section type, a section whose every string field is
`<script>` renders with `&lt;script&gt;` and without a raw `<script>` —
except the `body` of `legal-document`, which appears verbatim. -/
theorem esc_discipline :
    (escStr "&" = "&amp;" ∧ escStr "<" = "&lt;" ∧ escStr ">" = "&gt;" ∧
     escStr "\"" = "&quot;" ∧ escStr "<script>" = "&lt;script&gt;") ∧
    (∀ s : String,
      (escStr s).data.all (fun ch => !(ch == '<') && !(ch == '>') && !(ch == '"')) = true) ∧
    registryKeys.all (fun t =>
      t == "legal-document" ||
      (!containsSub (renderByType t scriptSec) "<script>" &&
        containsSub (renderByType t scriptSec) "&lt;script&gt;")) = true ∧
    containsSub (renderByType "legal-document" scriptSec) "<script>" = true ∧
    containsSub (renderByType "legal-document" scriptSec) "&lt;script&gt;" = true :=
  ⟨⟨by decide, by decide, by decide, by decide, by decide⟩,
   escStr_no_reserved, by decide, by decide, by decide⟩

/-! ## C2 — link destinations are NOT verbatim: `esc` is applied -/

/-- C2 as stated is false: a `contact-block` `href` (and likewise the
other link destinations) containing a double quote does not appear
verbatim in the markup; it appears with `&quot;`, because the source
applies `esc` to `item.href`, `s.url` and `item.url` too. -/
theorem href_verbatim_counterexample :
    (renderSection (cbSec "/x\"y")).map (fun h => containsSub h "/x\"y") = some false ∧
    (renderSection (cbSec "/x\"y")).map (fun h => containsSub h "/x&quot;y") = some true ∧
    (renderSection (linkSec "/x\"y")).map (fun h => containsSub h "/x\"y") = some false ∧
    (renderSection (linkSec "/x\"y")).map (fun h => containsSub h "/x&quot;y") = some true ∧
    (renderSection (backSec "/x\"y")).map (fun h => containsSub h "/x\"y") = some false ∧
    (renderSection (backSec "/x\"y")).map (fun h => containsSub h "/x&quot;y") = some true ∧
    (renderSection (legalNavSec "/x\"y")).map (fun h => containsSub h "/x\"y") = some false ∧
    (renderSection (legalNavSec "/x\"y")).map (fun h => containsSub h "/x&quot;y") = some true := by
  refine ⟨?_, ?_, ?_, ?_, ?_, ?_, ?_, ?_⟩ <;> decide

/-- C2 amended: every rendered link destination (`contact-block`
`item.href`, `link`/`back-link` `s.url`, `legal-nav` `item.url`) is
interpolated through `esc`, exactly like the other string fields — not
verbatim. -/
theorem link_destinations_escaped (u : String) (hu : u ≠ "") :
    Renderers.contactBlock (cbSec u) =
      "<div class=\"section-inner\">" ++ sectionLabel .vundef ++ "<dl class=\"contact-list\">" ++
        ("<div class=\"contact-item\">" ++ "<dt class=\"contact-method\">" ++ "Email" ++ "</dt>" ++
         "<dd class=\"contact-value\">" ++
           ("<a href=\"" ++ escStr u ++ "\">" ++ "Write to us" ++ "</a>") ++
         "</dd>" ++ "</div>") ++
      "</dl>" ++ "</div>" ∧
    Renderers.link (linkSec u) =
      "<div class=\"section-inner\">" ++ "<a href=\"" ++ escStr u ++ "\" class=\"official-link\"" ++
      " target=\"_blank\" rel=\"noopener noreferrer\"" ++ ">" ++ "Go" ++ "</a>" ++ "</div>" ∧
    Renderers.backLink (backSec u) =
      "<div class=\"section-inner\">" ++ "<a href=\"" ++ escStr u ++ "\" class=\"back-link\">" ++
      "Back to legal" ++ "</a>" ++ "</div>" ∧
    Renderers.legalNav (legalNavSec u) =
      "<div class=\"section-inner\">" ++ sectionLabel .vundef ++
      "<ul class=\"legal-nav-list\" role=\"list\">" ++
        ("<li>" ++ "<a href=\"" ++ escStr u ++ "\" class=\"legal-nav-link\">" ++ "Privacy" ++
         "</a>" ++ "</li>") ++
      "</ul>" ++ "</div>" := by
  have htr : truthy (JSVal.vstr u) = true := by simp [truthy, hu]
  have hor : jsOr (JSVal.vstr u) (.vstr "#") = .vstr u := by simp [jsOr, htr]
  have hor2 : jsOr (JSVal.vstr u) (.vstr "/legal/") = .vstr u := by simp [jsOr, htr]
  refine ⟨?_, ?_, ?_, ?_⟩
  · simp only [Renderers.contactBlock, cbSec, emailItem, Option.getD, List.map_cons,
      List.map_nil, htr, if_true]
    rfl
  · simp only [Renderers.link, linkSec, hor]
    rfl
  · simp only [Renderers.backLink, backSec, hor2]
    rfl
  · simp only [Renderers.legalNav, legalNavSec]
    rfl

/-- Witness for the amended C2 at a destination containing a quote. -/
theorem link_destinations_escaped_witness :
    ("/x\"y" : String) ≠ "" ∧
    Renderers.link (linkSec "/x\"y") =
      "<div class=\"section-inner\">" ++ "<a href=\"" ++ escStr "/x\"y" ++
      "\" class=\"official-link\"" ++ " target=\"_blank\" rel=\"noopener noreferrer\"" ++ ">" ++
      "Go" ++ "</a>" ++ "</div>" :=
  ⟨by decide, (link_destinations_escaped "/x\"y" (by decide)).2.1⟩

/-! ## C4 — the unknown-type fallback and the prototype-chain leak -/

/-- Supporting fact: for a registered type name the lookup hits an own
key of the registry, so dispatch always yields a fragment (this is why
`renderByType`'s `getD` default can never fire at its uses). -/
theorem renderSection_registered (s : Section) (h : jsStringOf s.type ∈ registryKeys) :
    ∃ html, renderSection s = some html := by
  rcases List.mem_map.mp h with ⟨p, hp, hpe⟩
  have hsome : (renderers.find? (fun q => q.1 == jsStringOf s.type)).isSome := by
    rw [List.find?_isSome]
    exact ⟨p, hp, by simp [hpe]⟩
  rcases Option.isSome_iff_exists.mp hsome with ⟨q, hq⟩
  refine ⟨q.2 s, ?_⟩
  unfold renderSection rendererFor
  rw [hq]
  rfl

/-- C4 fails on the code: `__proto__` is not a key of the renderer
registry, yet rendering a section typed `__proto__` does not fall back
and produces no fragment — the bracket lookup finds the truthy inherited
`Object.prototype`, the fallback branch is skipped, and
`renderer(section)` throws a `TypeError`; `constructor` and `toString`
likewise skip the fallback and yield non-elements that `appendChild`
rejects.  The fallback fragment the claim promises does exist
(last conjunct) — the dispatch never reaches it. -/
theorem proto_type_breaks_fallback :
    jsStringOf (JSVal.vstr "__proto__") ∉ registryKeys ∧
    renderSection { type := .vstr "__proto__", body := .vstr "hello" } = none ∧
    jsStringOf (JSVal.vstr "constructor") ∉ registryKeys ∧
    renderSection { type := .vstr "constructor", body := .vstr "hello" } = none ∧
    jsStringOf (JSVal.vstr "toString") ∉ registryKeys ∧
    renderSection { type := .vstr "toString", body := .vstr "hello" } = none ∧
    fallbackHtml { type := .vstr "__proto__", body := .vstr "hello" } =
      "<div class=\"section-inner\"><p>hello</p></div>" ∧
    renderSection { type := .vstr "carousel", body := .vstr "plain <b>text</b>" } =
      some (fallbackHtml { type := .vstr "carousel", body := .vstr "plain <b>text</b>" }) := by
  refine ⟨?_, ?_, ?_, ?_, ?_, ?_, ?_, ?_⟩ <;> decide

/-! ## C5 — active-navigation marking -/

/-- C5: a navigation link is marked active (class `is-active` plus
`aria-current="page"`) iff its normalised target `h` equals the
normalised current path `c`, or `h` is not `/` and `h` is a string
prefix of `c`; otherwise both markers are removed.  With current path
`/about/team`, the link `/about` is active and `/contact` is not. -/
theorem active_nav_iff (currentRaw : String) (hrefAttr : Option String) (st : LinkState) :
    (("is-active" ∈ (updateLink currentRaw hrefAttr st).classes ∧
      (updateLink currentRaw hrefAttr st).ariaCurrent = some "page") ↔
      (normalisePath (hrefAttr.getD "") = normalisePath currentRaw ∨
       (normalisePath (hrefAttr.getD "") ≠ "/" ∧
        (normalisePath (hrefAttr.getD "")).data <+: (normalisePath currentRaw).data))) ∧
    (¬ (normalisePath (hrefAttr.getD "") = normalisePath currentRaw ∨
        (normalisePath (hrefAttr.getD "") ≠ "/" ∧
         (normalisePath (hrefAttr.getD "")).data <+: (normalisePath currentRaw).data)) →
      "is-active" ∉ (updateLink currentRaw hrefAttr st).classes ∧
      (updateLink currentRaw hrefAttr st).ariaCurrent = none) ∧
    (updateLink "/about/team" (some "/about") { classes := ["nav-link"] }).ariaCurrent
      = some "page" ∧
    "is-active" ∈ (updateLink "/about/team" (some "/about") { classes := ["nav-link"] }).classes ∧
    updateLink "/about/team" (some "/contact")
        { classes := ["nav-link", "is-active"], ariaCurrent := some "page" } =
      { classes := ["nav-link"], ariaCurrent := none } := by
  have hbool : isActiveLink (normalisePath currentRaw) (normalisePath (hrefAttr.getD ""))
      = true ↔
      (normalisePath (hrefAttr.getD "") = normalisePath currentRaw ∨
       (normalisePath (hrefAttr.getD "") ≠ "/" ∧
        (normalisePath (hrefAttr.getD "")).data <+: (normalisePath currentRaw).data)) := by
    simp [isActiveLink, List.isPrefixOf_iff_prefix]
  have hmem : ∀ (l : List String) (c : String), c ∈ addClass l c := by
    intro l c
    unfold addClass
    split
    · assumption
    · exact List.mem_append_right _ (List.mem_cons_self _ _)
  refine ⟨?_, ?_, by decide, by decide, by decide⟩
  · by_cases hc : isActiveLink (normalisePath currentRaw) (normalisePath (hrefAttr.getD ""))
        = true
    · rw [← hbool]
      simp only [updateLink, hc, if_true]
      simp [hmem, hc]
    · rw [← hbool]
      simp only [updateLink, hc, if_false]
      simp only [Bool.false_eq_true] at hc
      simp [hc]
  · intro hnot
    rw [← hbool] at hnot
    have hc : isActiveLink (normalisePath currentRaw) (normalisePath (hrefAttr.getD ""))
        = false := by
      cases hcv : isActiveLink (normalisePath currentRaw) (normalisePath (hrefAttr.getD ""))
      · rfl
      · exact absurd hcv hnot
    simp only [updateLink, hc, Bool.false_eq_true, if_false]
    constructor
    · simp [removeClass, List.mem_filter]
    · trivial

/-- Witness for C5's removal clause on a non-matching link. -/
theorem active_nav_iff_witness :
    ¬ (normalisePath ((some "/contact").getD "") = normalisePath "/about/team" ∨
       (normalisePath ((some "/contact").getD "") ≠ "/" ∧
        (normalisePath ((some "/contact").getD "")).data
          <+: (normalisePath "/about/team").data)) ∧
    "is-active" ∉
      (updateLink "/about/team" (some "/contact")
        { classes := ["is-active"], ariaCurrent := some "page" }).classes :=
  ⟨by decide,
   ((active_nav_iff "/about/team" (some "/contact")
       { classes := ["is-active"], ariaCurrent := some "page" }).2.1 (by decide)).1⟩

/-! ## C8 — chrome pipeline failures leave markup untouched -/

/-- C8: any failure of the site-chrome pipeline (network rejection,
non-`ok` HTTP status, or parse failure) is logged, `loadNavConfig`
resolves to `null`, and `applySiteChrome` leaves every footer slot
unchanged. -/
theorem chrome_failure_untouched (parse : String → Option NavData) (r : FetchResult)
    (cy : Int) (st : ChromeState)
    (h : r = .networkError ∨
         ∃ ok status body, r = .response ok status body ∧ (ok = false ∨ parse body = none)) :
    loadNavConfig parse r = (none, true) ∧
    applySiteChrome cy (loadNavConfig parse r).1 st = st := by
  have hl : loadNavConfig parse r = (none, true) := by
    rcases h with h | ⟨ok, status, body, rfl, hfail⟩
    · subst h; rfl
    · rcases hfail with rfl | hp
      · rfl
      · cases ok
        · rfl
        · simp [loadNavConfig, hp]
  rw [hl]
  exact ⟨rfl, rfl⟩

/-- Witness for C8 on a concrete network failure. -/
theorem chrome_failure_untouched_witness :
    loadNavConfig (fun _ => none) .networkError = (none, true) ∧
    applySiteChrome 2026 (loadNavConfig (fun _ => none) .networkError).1 {} =
      ({} : ChromeState) :=
  chrome_failure_untouched (fun _ => none) .networkError 2026 {} (Or.inl rfl)

/-! ## C9 — the render commit is a two-step replacement -/

/-- C9 as stated is false: committing the rendered fragment is not one
atomic child-replacing operation.  With old content `["section--old"]`
and fragment `["section--new"]`, the container's child-list passes
through the intermediate empty state `[]` (after `innerHTML = ''` and
before `appendChild`), and the commit performs two child-mutating
operations, not one. -/
theorem atomic_replace_counterexample :
    ((statesOf { busy := "true", children := ["section--old"] }
        (renderCommitOps ["section--new"])).map RootState.children) =
      [["section--old"], ["section--old"], [], ["section--new"]] ∧
    (renderCommitOps ["section--new"]).countP mutatesChildren = 2 :=
  ⟨by decide, by decide⟩

/-- C9 amended: the `Rendering → Rendered` commit replaces the
container's children in two consecutive synchronous operations — clear,
then append — so within the same task the child-list passes through
exactly one intermediate state, the empty container, and ends exactly at
the fragment's nodes. -/
theorem commit_two_step (st : RootState) (fragment : List String) :
    statesOf st (renderCommitOps fragment) =
      [st, { st with busy := "false" },
       { busy := "false", children := [] },
       { busy := "false", children := fragment }] := by
  rfl

/-! ## C10 — non-string fields render as empty text -/

/-- C10: `esc` maps every non-string to `''`, so a missing item field
(`undefined`) renders as empty text — never as the literal text
`undefined` and never by throwing; e.g. a `summary` item with no `label`
and no `value` yields empty `dt`/`dd` cells. -/
theorem esc_nonstring_empty :
    (∀ v : JSVal, v.isStringV = false → esc v = "") ∧
    renderByType "summary" { items := some [{}] } =
      "<div class=\"section-inner\"><dl class=\"summary-list\"><div class=\"summary-item\"><dt class=\"summary-term\"></dt><dd class=\"summary-value\"></dd></div></dl></div>" ∧
    containsSub (renderByType "summary" { items := some [{}] }) "undefined" = false := by
  refine ⟨?_, by decide, by decide⟩
  intro v hv
  cases v
  · simp [JSVal.isStringV] at hv
  · rfl
  · rfl
  · rfl
  · rfl

/-- Witness for C10 at a concrete non-string value. -/
theorem esc_nonstring_empty_witness :
    JSVal.isStringV (.vnum 42) = false ∧ esc (.vnum 42) = "" :=
  ⟨by decide, esc_nonstring_empty.1 (.vnum 42) (by decide)⟩

end SiteSpec
